import Mathlib

/-!
Verification development for the cdav-library WebDAV client.

The definitions below are a shallow embedding of the source files:
- Request (src/request.js, given as src/unnamed/part_000): the 207
  multi-status reducer, the status-line parser, the success predicate and
  the error-classification cascade of the generic request method.
- DavCollection (src/src/models/davCollection.js): url normalization,
  update, find and the multi-status child-resolution algorithm.
- davCollectionPublishable (src/src/models/davCollectionPublishable.js):
  unpublish.

External collaborators (the DOM/XPath walker, the URL resolver, the
pluggable property parser) are modelled at their interface, as the spec
itself scopes them: a 207 body arrives as the already-walked tree of
response, propstat and prop nodes, and the parser is a pair of functions.
-/

deriving instance DecidableEq for Except

namespace CDav

/-- Values a parsed DAV property can take in the JS code: a plain string,
a list of strings (for example resourcetype), or the JS undefined value. -/
inductive PropValue where
  | str (s : String)
  | list (l : List String)
  | undef
deriving DecidableEq, Repr

/-- A PropertyMap: JS object from qualified property name to parsed value,
kept as an association list in insertion order (JS objects preserve the
insertion order of non-numeric string keys). -/
abbrev PropertyMap := List (String × PropValue)

/-- JS object property write: overwrite in place when the key exists,
otherwise append (insertion order of the first write is kept). -/
def objSet {α : Type} (l : List (String × α)) (k : String) (v : α) : List (String × α) :=
  if l.any (fun kv => kv.1 == k) then
    l.map (fun kv => if kv.1 == k then (k, v) else kv)
  else
    l ++ [(k, v)]

/-- JS object property read: none models the JS undefined result. -/
def objGet {α : Type} (l : List (String × α)) (k : String) : Option α :=
  (l.find? (fun kv => kv.1 == k)).map (fun kv => kv.2)

/-- Digit run to number, base 10. -/
def digitsToNat (l : List Char) : Nat :=
  l.foldl (fun a c => a * 10 + (c.toNat - 48)) 0

/-- Model of the JS parseInt(s, 10): skip leading whitespace, optional
sign, then the longest run of leading digits; none models NaN. -/
def parseIntJS (s : String) : Option Int :=
  let l := s.data.dropWhile (fun c => c == ' ' || c == '\t' || c == '\n' || c == '\r')
  let signAndRest : Int × List Char :=
    match l with
    | '-' :: rest => (-1, rest)
    | '+' :: rest => (1, rest)
    | _ => (1, l)
  let ds := signAndRest.2.takeWhile Char.isDigit
  if ds.isEmpty then none
  else some (signAndRest.1 * (digitsToNat ds : Int))

/-- wasRequestSuccessful of request.js: status in the 2xx range. -/
def wasRequestSuccessful (status : Int) : Bool :=
  200 ≤ status && status < 300

/-- Split of a character list at every occurrence of a separator. -/
def splitCharList (sep : Char) : List Char → List (List Char)
  | [] => [[]]
  | c :: rest =>
    let r := splitCharList sep rest
    if c == sep then [] :: r
    else
      match r with
      | [] => [[c]]
      | h :: t => (c :: h) :: t

/-- JS String.split with a one-character separator string. -/
def jsSplit (sep : Char) (s : String) : List String :=
  (splitCharList sep s.data).map String.mk

/-- getStatusCodeFromString of request.js: split the status line at space
characters and run parseInt on the second token, base 10. The result none
models NaN (also when the status line has no second token, where JS reads
undefined and parseInt of undefined is NaN). -/
def getStatusCodeFromString (status : String) : Option Int :=
  match (jsSplit ' ' status).drop 1 with
  | [] => none
  | tok :: _ => parseIntJS tok

/-- One property element under a prop tag of a propstat block, as delivered
by the XML walker: its namespace URI, its local name, and the value the
pluggable parser would produce for it. -/
structure PropNode where
  namespaceURI : String
  localName : String
  value : PropValue
deriving DecidableEq, Repr

/-- Canonical qualified-name key used by the reducer. -/
def qualify (p : PropNode) : String :=
  "\x7b" ++ p.namespaceURI ++ "\x7d" ++ p.localName

/-- One propstat block: its embedded status line and its prop children. -/
structure PropStatNode where
  status : String
  props : List PropNode
deriving DecidableEq, Repr

/-- One response element of a 207 multistatus body. -/
structure ResponseNode where
  href : String
  propstats : List PropStatNode
deriving DecidableEq, Repr

/-- The pluggable property parser of the Request class, at its interface:
canParse decides acceptance of a qualified name, parse produces the value. -/
structure DavParser where
  canParse : String → Bool
  parse : PropNode → PropValue

/-- Inner prop loop of parseMultiStatusResponse: for every property
element, merge the parsed value when the parser accepts the name. -/
def parseProps (parser : DavParser) (acc : PropertyMap) (props : List PropNode) : PropertyMap :=
  props.foldl
    (fun a p => if parser.canParse (qualify p) then objSet a (qualify p) (parser.parse p) else a)
    acc

/-- The status test of the propstat loop: the embedded status line parses
to a 2xx code (an unparseable line, NaN in JS, fails the test). -/
def propstatSuccessful (ps : PropStatNode) : Bool :=
  match getStatusCodeFromString ps.status with
  | none => false
  | some c => wasRequestSuccessful c

/-- The propstat loop of parseMultiStatusResponse: blocks failing the
status test are skipped whole; successful blocks merge their props. -/
def parsePropstatList (parser : DavParser) (l : List PropStatNode) : PropertyMap :=
  l.foldl
    (fun acc ps => if propstatSuccessful ps then parseProps parser acc ps.props else acc)
    []

/-- parseMultiStatusResponse of request.js: walk every response element,
reduce its propstat blocks to a PropertyMap, and assign it to the href key
of the result object (a later response with the same href overwrites). -/
def parseMultiStatusResponse (parser : DavParser) (body : List ResponseNode) :
    List (String × PropertyMap) :=
  body.foldl
    (fun result rsp => objSet result rsp.href (parsePropstatList parser rsp.propstats))
    []

/-- The XML element tree of the skeleton builder: qualified name,
attributes, children, optional scalar value. -/
inductive XmlNode where
  | mk (ns ln : String) (attributes : List (String × String)) (children : List XmlNode) (value : Option String)

/-- Modelled from the spec: XML text escaping used by the serializer of
xmlUtility.js, whose source is not under src. -/
def xmlEscape (s : String) : String :=
  String.join (s.data.map (fun c =>
    if c == '&' then "&amp;"
    else if c == '<' then "&lt;"
    else if c == '>' then "&gt;"
    else if c == '"' then "&quot;"
    else String.mk [c]))

/-- Modelled from the spec: the serializer allocates one prefix per
distinct namespace URI in order of first use within one serialization. -/
def prefixOfNs (seen : List String) (ns : String) : String :=
  "x" ++ toString (seen.indexOf ns + 1)

mutual

/-- Modelled from the spec: XMLUtility.serialize of xmlUtility.js (not
under src). Emits an xmlns declaration on the first use of a namespace,
renders childless valueless nodes self-closing, renders a value as the
escaped sole text content, and renders children in order otherwise. -/
def serializeNode (n : XmlNode) (seen : List String) : String × List String :=
  match n with
  | .mk ns ln attrs children value =>
    let known := seen.contains ns
    let seen1 := if known then seen else seen ++ [ns]
    let pfx := prefixOfNs seen1 ns
    let xmlnsDecl := if known then "" else " xmlns:" ++ pfx ++ "=\"" ++ ns ++ "\""
    let attrStr := attrs.foldl (fun a kv => a ++ " " ++ kv.1 ++ "=\"" ++ xmlEscape kv.2 ++ "\"") ""
    let openTag := "<" ++ pfx ++ ":" ++ ln ++ xmlnsDecl ++ attrStr
    match children, value with
    | [], none => (openTag ++ "/>", seen1)
    | [], some v => (openTag ++ ">" ++ xmlEscape v ++ "</" ++ pfx ++ ":" ++ ln ++ ">", seen1)
    | c :: cs, _ =>
      let inner := serializeChildren (c :: cs) seen1
      (openTag ++ ">" ++ inner.1 ++ "</" ++ pfx ++ ":" ++ ln ++ ">", inner.2)

/-- Children serialization threading the namespace-prefix state. -/
def serializeChildren (l : List XmlNode) (seen : List String) : String × List String :=
  match l with
  | [] => ("", seen)
  | x :: xs =>
    let first := serializeNode x seen
    let rest := serializeChildren xs first.2
    (first.1 ++ rest.1, rest.2)

end

/-- Modelled from the spec: serialization entry point, fresh prefix state. -/
def serialize (n : XmlNode) : String := (serializeNode n []).1

/-- Modelled from the spec: getRootSkeleton of xmlUtility.js (not under
src) for the three-level chains the model code builds, with the dynamic
content already spliced into the innermost children list. -/
def getRootSkeleton3 (n1 n2 n3 : String × String) (inner : List XmlNode) : XmlNode :=
  XmlNode.mk n1.1 n1.2 [] [XmlNode.mk n2.1 n2.2 [] [XmlNode.mk n3.1 n3.2 [] inner none] none] none

/-- The DAV namespace URI constant of namespaceUtility.js (not under src;
its value is fixed by the qualified names the code and spec write, such
as the literal key of davCollection.js line 337). -/
def nsDAV : String := "DAV:"

/-- The calendarserver namespace URI, fixed by the literal property key
deleted in davCollectionPublishable.js line 72. -/
def nsCalendarserver : String := "http://calendarserver.org/ns/"

/-- Qualified name of the resourcetype property. -/
def rtKey : String := "\x7bDAV:\x7dresourcetype"

/-- Qualified name of the getcontenttype property. -/
def ctKey : String := "\x7bDAV:\x7dgetcontenttype"

/-- Qualified name of the displayname property, the mutable property the
base DavCollection exposes. -/
def displaynameKey : String := "\x7bDAV:\x7ddisplayname"

/-- The generic collection marker compared against in the resolution
algorithm of davCollection.js line 353. -/
def collectionMarker : String := "\x7bDAV:\x7dcollection"

/-- Qualified name of the publish-url property deleted by unpublish. -/
def publishUrlKey : String := "\x7bhttp://calendarserver.org/ns/\x7dpublish-url"

/-- JS string coercion used when a property value reaches the serializer. -/
def jsString : PropValue → String
  | .str s => s
  | .list l => String.intercalate "," l
  | .undef => "undefined"

/-- Modelled from the spec: davCollectionPropSet of
src/propset/davCollectionPropSet.js (not under src) is the property-set
encoder registered by the base DavCollection; following the encoder
contract of the spec and the shape of the addressBookPropSet source, it
walks the given entries and contributes the XML element descriptor of the
displayname property, the one mutable property the base collection
exposes, skipping keys it does not know. -/
def davCollectionPropSet (props : PropertyMap) : List XmlNode :=
  props.foldl
    (fun xmlified kv =>
      if kv.1 == displaynameKey then
        xmlified ++ [XmlNode.mk nsDAV "displayname" [] [] (some (jsString kv.2))]
      else xmlified)
    []

/-- One request handed to the HTTP layer: method, url and body. -/
structure IssuedRequest where
  method : String
  url : String
  body : String
deriving DecidableEq, Repr

/-- The slice(-1) of JS used by the DavCollection constructor. -/
def jsSliceLast (s : String) : String :=
  String.mk (s.data.drop (s.data.length - 1))

/-- URL normalization of the DavCollection constructor, lines 31 to 34 of
davCollection.js: a collection url always ends with a separator. -/
def normalizeCollectionUrl (url : String) : String :=
  if jsSliceLast url ≠ "/" then url ++ "/" else url

/-- Whether a string ends with the separator character. -/
def endsWithSlash (s : String) : Bool :=
  s.data.getLast? == some '/'

/-- The state of a DavCollection instance that the claims concern: its
normalized url, its property map, its dirty set in push order, and the
keys of its two factory maps. -/
structure DavCollectionState where
  url : String
  props : PropertyMap
  updatedProperties : List String
  collectionFactoryMapper : List String
  objectFactoryMapper : List String
deriving DecidableEq, Repr

/-- update of davCollection.js lines 170 to 190: return immediately when
the dirty set is empty; otherwise gather the current values of the dirty
keys, run every registered property-set encoder over them, wrap the
result in the propertyupdate skeleton, serialize, and issue one PROPPATCH
to the collection url. The code never touches updatedProperties after the
request, so the state is returned unchanged. -/
def update (propSetFactory : List (PropertyMap → List XmlNode)) (c : DavCollectionState) :
    DavCollectionState × List IssuedRequest :=
  if c.updatedProperties.length == 0 then (c, [])
  else
    let properties := c.updatedProperties.foldl
      (fun acc k => objSet acc k ((objGet c.props k).getD .undef)) []
    let propSet := propSetFactory.foldl (fun arr p => arr ++ p properties) []
    let skeleton := getRootSkeleton3 (nsDAV, "propertyupdate") (nsDAV, "set") (nsDAV, "prop") propSet
    let body := serialize skeleton
    (c, [⟨"PROPPATCH", c.url, body⟩])

/-- unpublish of davCollectionPublishable.js lines 64 to 73: serialize the
unpublish-calendar skeleton, POST it to the collection url, then delete
the publish-url key from the local property map. Nothing else of the
state is touched. -/
def unpublish (c : DavCollectionState) : DavCollectionState × List IssuedRequest :=
  let xml := serialize (XmlNode.mk nsCalendarserver "unpublish-calendar" [] [] none)
  ({ c with props := c.props.filter (fun kv => !(kv.1 == publishUrlKey)) },
   [⟨"POST", c.url, xml⟩])

/-- The shape of the error value the HTTP client hands the catch cascade
of request.js: cancellation flag, the request field that is set when a
request went out but no response came back, the HTTP status when one
exists (none models the JS undefined), and the response data. -/
structure HttpFailure where
  isCancel : Bool
  hasRequest : Bool
  status : Option Int
  data : Option String
deriving DecidableEq, Repr

/-- The five rejection kinds of request.js, each carrying the body and
status fields the code passes the error constructor. -/
inductive RequestError where
  | abortedError (body : Option String) (status : Option Int)
  | networkError (body : Option String) (status : Option Int)
  | clientError (body : Option String) (status : Option Int)
  | serverError (body : Option String) (status : Option Int)
  | httpError (body : Option String) (status : Option Int)
deriving DecidableEq, Repr

/-- JS comparison lo LE status: undefined compared to a number is false. -/
def jsStatusGE (status : Option Int) (bound : Int) : Bool :=
  match status with
  | none => false
  | some s => bound ≤ s

/-- JS comparison status LT hi: undefined compared to a number is false. -/
def jsStatusLT (status : Option Int) (bound : Int) : Bool :=
  match status with
  | none => false
  | some s => s < bound

/-- The catch cascade of request.js lines 324 to 359: cancellation first,
then the no-response case, then the 4xx range, then the 5xx range, and a
generic HTTP error for everything else. -/
def classifyRequestFailure (e : HttpFailure) : RequestError :=
  if e.isCancel then .abortedError none (some (-1))
  else if e.hasRequest then .networkError none (some (-1))
  else if jsStatusGE e.status 400 && jsStatusLT e.status 500 then .clientError e.data e.status
  else if jsStatusGE e.status 500 && jsStatusLT e.status 600 then .serverError e.data e.status
  else .httpError e.data e.status

/-- The part of the Request instance the resolution algorithm consumes:
pathname resolves an href against the base url and returns the path
component, an external URL-parsing capability kept at its interface. -/
structure DavRequest where
  pathname : String → String

/-- A child node instantiated by the resolution algorithm: which
constructor ran (object or collection), the parent url passed as this,
the local path passed as url, the property map passed along, the factory
identifier when a registered subtype constructor was used (none for the
generic types), and for factory-built objects the isPartial flag. -/
inductive Child where
  | object (parentUrl url : String) (props : PropertyMap) (factory : Option String) (isPartial : Bool)
  | collection (parentUrl url : String) (props : PropertyMap) (factory : Option String)
deriving DecidableEq, Repr

/-- The property map a child node was constructed with. -/
def childProps : Child → PropertyMap
  | .object _ _ p _ _ => p
  | .collection _ _ p _ => p

/-- Whether a child was instantiated through an object constructor. -/
def isObjectChild : Child → Bool
  | .object _ _ _ _ _ => true
  | .collection _ _ _ _ => false

/-- JS falsiness of a property value: undefined and the empty string are
falsy, arrays (even empty ones) are truthy. -/
def jsFalsy : PropValue → Bool
  | .undef => true
  | .str s => s == ""
  | .list _ => false

/-- JS length-is-zero test on a property value. -/
def jsLengthZero : PropValue → Bool
  | .undef => false
  | .str s => s.length == 0
  | .list l => l.length == 0

/-- The object-classification condition of davCollection.js line 337:
the resourcetype value is falsy or has length zero, and the
getcontenttype value is truthy. An absent resourcetype short-circuits the
disjunction, so its length is never read. -/
def isObjectCond (props : PropertyMap) : Bool :=
  (match objGet props rtKey with
   | none => true
   | some v => jsFalsy v || jsLengthZero v)
  &&
  (match objGet props ctKey with
   | none => false
   | some v => !jsFalsy v)

/-- One entry of the resolution loop of _handleMultiStatusResponse,
davCollection.js lines 325 to 369: skip the entry whose path is the
collection url with or without trailing separator (ok none); otherwise
classify and instantiate. Reading a member of an undefined value or
calling split or find on a value that lacks it throws a TypeError, which
the model surfaces as an error value. -/
def handleEntry (c : DavCollectionState) (req : DavRequest) (isPartial : Bool)
    (path : String) (props : PropertyMap) : Except String (Option Child) :=
  if path == c.url || path ++ "/" == c.url then .ok none
  else if isObjectCond props then
    match objGet props ctKey with
    | some (.str s) =>
      if c.objectFactoryMapper.contains ((jsSplit ';' s).headD "") then
        .ok (some (.object c.url (req.pathname path) props (some ((jsSplit ';' s).headD "")) isPartial))
      else
        .ok (some (.object c.url (req.pathname path) props none false))
    | _ => .error "TypeError: split is not a function"
  else
    match objGet props rtKey with
    | some (.list l) =>
      match l.find? (fun r => r != collectionMarker) with
      | none => .ok (some (.collection c.url (req.pathname path) props none))
      | some t =>
        if c.collectionFactoryMapper.contains t then
          .ok (some (.collection c.url (req.pathname path) props (some t)))
        else
          .ok (some (.collection c.url (req.pathname path) props none))
    | _ => .error "TypeError: find is not a function"

/-- The entry loop of _handleMultiStatusResponse, threading the children
and index accumulators; a thrown TypeError aborts the whole call. -/
def handleEntries (c : DavCollectionState) (req : DavRequest) (isPartial : Bool) :
    List (String × PropertyMap) → List Child → List String →
    Except String (List Child × List String)
  | [], children, index => .ok (children, index)
  | (path, props) :: rest, children, index =>
    match handleEntry c req isPartial path props with
    | .error e => .error e
    | .ok none => handleEntries c req isPartial rest children index
    | .ok (some ch) => handleEntries c req isPartial rest (children ++ [ch]) (index ++ [path])

/-- _handleMultiStatusResponse of davCollection.js: resolve every entry of
the reduced multi-status body into typed children, also returning the
index of paths recorded into the known-children names. -/
def handleMultiStatusResponse (c : DavCollectionState) (req : DavRequest) (isPartial : Bool)
    (body : List (String × PropertyMap)) : Except String (List Child × List String) :=
  handleEntries c req isPartial body [] []

/-- The body shapes the request method can resolve with for a 207
response: the reduced multi-status map, or, after the Depth-0 PROPFIND
unwrap, the single PropertyMap (none when the reduced map was empty and
the JS lookup of its first key produced undefined). -/
inductive DavResponseBody where
  | multi (m : List (String × PropertyMap))
  | single (pm : Option PropertyMap)
deriving Repr

/-- The 207 branch of the request method, request.js lines 310 to 317:
reduce the body, and when the Depth header parses to 0 and the method is
PROPFIND, unwrap the entry of the first key of the reduced map. -/
def request207 (parser : DavParser) (method : String) (depth : String)
    (responses : List ResponseNode) : DavResponseBody :=
  let m := parseMultiStatusResponse parser responses
  if parseIntJS depth == some 0 && method == "PROPFIND" then
    .single (match m with
      | [] => none
      | (_, pm) :: _ => some pm)
  else
    .multi m

/-- find of davCollection.js lines 98 to 102 composed with the request
processing: issue the Depth-0 PROPFIND on url ++ uri, rewrap the unwrapped
body under the key url ++ uri, resolve it, and take the element at index
zero. When the unwrap produced undefined the resolution reads a member of
undefined and throws. The Depth-0 PROPFIND branch of request207 always
yields a single body, so the multi branch below cannot be reached. -/
def findOnCollection (parser : DavParser) (c : DavCollectionState) (req : DavRequest)
    (uri : String) (responses : List ResponseNode) : Except String (Option Child) :=
  match request207 parser "PROPFIND" "0" responses with
  | .single none => .error "TypeError: cannot read properties of undefined"
  | .single (some pm) =>
    (handleMultiStatusResponse c req false [(c.url ++ uri, pm)]).map (fun x => x.1[0]?)
  | .multi _ => .error "unreachable"

/-- A propstat block whose status line parses to a numeric code outside
the 2xx success range (an unparseable line is not of this kind). -/
def propstatParsedUnsuccessful (ps : PropStatNode) : Bool :=
  match getStatusCodeFromString ps.status with
  | none => false
  | some c => !wasRequestSuccessful c

/-- Shape discipline on the resourcetype value: absent or a list, as the
property parser of the library produces it. -/
def rtShapeOk (props : PropertyMap) : Bool :=
  match objGet props rtKey with
  | none => true
  | some (.list _) => true
  | some _ => false

/-- Shape discipline on the getcontenttype value: absent or a string, as
the property parser of the library produces it. -/
def ctShapeOk (props : PropertyMap) : Bool :=
  match objGet props ctKey with
  | none => true
  | some (.str _) => true
  | some _ => false

/-- A parser fixture accepting every property and returning the walked
value unchanged. -/
def parserAll : DavParser := ⟨fun _ => true, fun p => p.value⟩

/-- A request fixture whose pathname is the identity on paths. -/
def reqId : DavRequest := ⟨fun s => s⟩

/-- A collection fixture with one registered collection factory and one
registered object factory. -/
def calFix : DavCollectionState :=
  ⟨"/cal/", [(displaynameKey, .str "Personal")], [],
   ["\x7burn:ietf:params:xml:ns:caldav\x7dcalendar"], ["text/vcard"]⟩

/-- A collection fixture whose displayname was mutated locally. -/
def dirtyFix : DavCollectionState :=
  ⟨"/cal/", [(displaynameKey, .str "New name")], [displaynameKey], [], []⟩

/-- A published collection fixture with a nonempty dirty set. -/
def pubFix : DavCollectionState :=
  ⟨"/cal/", [(publishUrlKey, .str "http://host/public/x"), (displaynameKey, .str "D")],
   ["\x7bDAV:\x7ddisplayname"], [], []⟩

/-- A collection fixture with nothing locally mutated. -/
def cleanFix : DavCollectionState := ⟨"/home/", [(displaynameKey, .str "Home")], [], [], []⟩

/-- A Depth-0 PROPFIND multistatus response fixture for the find flow. -/
def findRespFix : List ResponseNode :=
  [⟨"/cal/sub/", [⟨"HTTP/1.1 200 OK",
    [⟨"DAV:", "resourcetype", .list []⟩, ⟨"DAV:", "getcontenttype", .str "text/x"⟩]⟩]⟩]

/-- The PropertyMap the reducer derives from findRespFix. -/
def findPmFix : PropertyMap := [(rtKey, .list []), (ctKey, .str "text/x")]

/-- The child node the find flow resolves findRespFix to. -/
def findChildFix : Child := .object "/cal/" "/cal/sub/" findPmFix none false

/- General lemmas on the JS object model. -/

theorem find?_map_set {α : Type} (k : String) (v : α) : ∀ (l : List (String × α)),
    (l.any (fun kv => kv.1 == k)) = true →
    (l.map (fun kv => if kv.1 == k then (k, v) else kv)).find? (fun kv => kv.1 == k) = some (k, v)
  | [], h => by simp at h
  | kv :: t, h => by
    rw [List.map_cons]
    by_cases hk : kv.1 = k
    · rw [if_pos (by simpa using hk)]
      exact List.find?_cons_of_pos _ (by simp)
    · rw [if_neg (by simpa using hk)]
      rw [List.find?_cons_of_neg _ (by simpa using hk)]
      apply find?_map_set k v t
      rw [List.any_cons] at h
      simpa [hk] using h

theorem find?_map_set_ne {α : Type} (k k' : String) (v : α) (h : k' ≠ k) :
    ∀ (l : List (String × α)),
    (l.map (fun kv => if kv.1 == k then (k, v) else kv)).find? (fun kv => kv.1 == k')
      = l.find? (fun kv => kv.1 == k')
  | [] => by simp
  | kv :: t => by
    rw [List.map_cons]
    by_cases hk : kv.1 = k
    · have h1 : (kv.1 == k') = false := by
        simp only [beq_eq_false_iff_ne, ne_eq, hk]
        exact fun e => h e.symm
      rw [if_pos (by simpa using hk)]
      rw [List.find?_cons_of_neg _ (by simp; exact fun e => h e.symm)]
      rw [List.find?_cons_of_neg _ (by simpa using h1)]
      exact find?_map_set_ne k k' v h t
    · rw [if_neg (by simpa using hk)]
      by_cases hk' : kv.1 = k'
      · rw [List.find?_cons_of_pos _ (by simpa using hk'),
            List.find?_cons_of_pos _ (by simpa using hk')]
      · rw [List.find?_cons_of_neg _ (by simpa using hk'),
            List.find?_cons_of_neg _ (by simpa using hk')]
        exact find?_map_set_ne k k' v h t

theorem find?_none_of_any_false {α : Type} (k : String) (l : List (String × α))
    (h : l.any (fun kv => kv.1 == k) = false) :
    l.find? (fun kv => kv.1 == k) = none := by
  rw [List.find?_eq_none]
  intro x hx
  have := List.any_eq_false.mp h x hx
  simpa using this

theorem objGet_objSet_self {α : Type} (l : List (String × α)) (k : String) (v : α) :
    objGet (objSet l k v) k = some v := by
  unfold objSet objGet
  by_cases h : l.any (fun kv => kv.1 == k)
  · rw [if_pos h, find?_map_set k v l h]
    rfl
  · have hb : l.any (fun kv => kv.1 == k) = false := Bool.eq_false_iff.mpr h
    rw [if_neg (by rw [hb]; exact Bool.false_ne_true), List.find?_append,
      find?_none_of_any_false k l hb]
    simp

theorem objGet_objSet_ne {α : Type} (l : List (String × α)) (k k' : String) (v : α)
    (h : k' ≠ k) : objGet (objSet l k v) k' = objGet l k' := by
  unfold objSet objGet
  by_cases ha : l.any (fun kv => kv.1 == k)
  · rw [if_pos ha, find?_map_set_ne k k' v h l]
  · have hb : l.any (fun kv => kv.1 == k) = false := Bool.eq_false_iff.mpr ha
    rw [if_neg (by rw [hb]; exact Bool.false_ne_true), List.find?_append]
    have h2 : List.find? (fun kv => kv.1 == k') [(k, v)] = none := by
      simp; exact fun e => h e.symm
    rw [h2]
    simp

theorem foldl_filter_eq {α β : Type} (f : β → α → β) (p : α → Bool)
    (hid : ∀ x, p x = false → ∀ b, f b x = b) :
    ∀ (l : List α) (b : β), (l.filter p).foldl f b = l.foldl f b
  | [], _ => rfl
  | x :: t, b => by
    by_cases hx : p x
    · rw [List.filter_cons_of_pos hx, List.foldl_cons, List.foldl_cons]
      exact foldl_filter_eq f p hid t (f b x)
    · have hb : p x = false := Bool.eq_false_iff.mpr hx
      rw [List.filter_cons_of_neg (by simp [hb]), List.foldl_cons, hid x hb b]
      exact foldl_filter_eq f p hid t b

theorem foldl_congr_fun {α β : Type} (f g : β → α → β)
    (h : ∀ b a, f b a = g b a) :
    ∀ (l : List α) (b : β), l.foldl f b = l.foldl g b
  | [], _ => rfl
  | x :: t, b => by
    rw [List.foldl_cons, List.foldl_cons, h b x]
    exact foldl_congr_fun f g h t (g b x)

theorem objGet_filter_self {α : Type} (k : String) :
    ∀ (l : List (String × α)),
      objGet (l.filter (fun kv => !(kv.1 == k))) k = none
  | [] => rfl
  | kv :: t => by
    by_cases hk : kv.1 = k
    · rw [List.filter_cons_of_neg (by simp [hk])]
      exact objGet_filter_self k t
    · rw [List.filter_cons_of_pos (by simp [hk])]
      unfold objGet
      rw [List.find?_cons_of_neg _ (by simpa using hk)]
      exact objGet_filter_self k t

theorem objGet_filter_other {α : Type} (k k' : String) (h : k' ≠ k) :
    ∀ (l : List (String × α)),
      objGet (l.filter (fun kv => !(kv.1 == k))) k' = objGet l k'
  | [] => rfl
  | kv :: t => by
    by_cases hk : kv.1 = k
    · have h1 : (kv.1 == k') = false := by
        simp only [beq_eq_false_iff_ne, ne_eq, hk]
        exact fun e => h e.symm
      rw [List.filter_cons_of_neg (by simp [hk])]
      unfold objGet
      rw [List.find?_cons_of_neg _ (by simp [h1])]
      exact objGet_filter_other k k' h t
    · rw [List.filter_cons_of_pos (by simp [hk])]
      by_cases hk' : kv.1 = k'
      · unfold objGet
        rw [List.find?_cons_of_pos _ (by simpa using hk'),
            List.find?_cons_of_pos _ (by simpa using hk')]
      · unfold objGet
        rw [List.find?_cons_of_neg _ (by simpa using hk'),
            List.find?_cons_of_neg _ (by simpa using hk')]
        exact objGet_filter_other k k' h t

theorem getLast?_of_drop_eq (a : Char) : ∀ (l : List Char), l.drop (l.length - 1) = [a] →
    l.getLast? = some a
  | [], h => by simp at h
  | [x], h => by
    simp only [List.length_singleton, Nat.sub_self, List.drop_zero] at h
    injection h with h1 _
    simp [h1]
  | x :: y :: t, h => by
    have h2 : (y :: t).drop ((y :: t).length - 1) = [a] := by
      have hl : (x :: y :: t).length - 1 = (y :: t).length := by simp
      rw [hl] at h
      simpa using h
    rw [List.getLast?_cons_cons]
    exact getLast?_of_drop_eq a (y :: t) h2

/- Lemmas about the multi-status reducer. -/

theorem propstatSuccessful_eq_false (ps : PropStatNode)
    (h : propstatParsedUnsuccessful ps = true) : propstatSuccessful ps = false := by
  unfold propstatSuccessful
  unfold propstatParsedUnsuccessful at h
  cases hg : getStatusCodeFromString ps.status with
  | none => rfl
  | some c => rw [hg] at h; simpa using h

theorem parsePropstatList_filter (parser : DavParser) (l : List PropStatNode) :
    parsePropstatList parser (l.filter (fun ps => !propstatParsedUnsuccessful ps))
      = parsePropstatList parser l := by
  unfold parsePropstatList
  apply foldl_filter_eq
  intro ps hps b
  have hpu : propstatParsedUnsuccessful ps = true := by simpa using hps
  rw [propstatSuccessful_eq_false ps hpu]
  simp

theorem parseMulti_acc (parser : DavParser) (q : String) :
    ∀ (body : List ResponseNode) (acc : List (String × PropertyMap)),
    objGet (body.foldl (fun result rsp => objSet result rsp.href (parsePropstatList parser rsp.propstats)) acc) q =
      (match (body.filter (fun r => r.href == q)).getLast? with
       | some r => some (parsePropstatList parser r.propstats)
       | none => objGet acc q)
  | [], acc => by simp
  | r :: rest, acc => by
    rw [List.foldl_cons,
        parseMulti_acc parser q rest (objSet acc r.href (parsePropstatList parser r.propstats))]
    by_cases hh : r.href = q
    · rw [List.filter_cons_of_pos (by simpa using hh)]
      cases hfr : (rest.filter (fun r => r.href == q)).getLast? with
      | none =>
        have hnil : rest.filter (fun r => r.href == q) = [] := List.getLast?_eq_none_iff.mp hfr
        rw [hnil]
        show objGet (objSet acc r.href (parsePropstatList parser r.propstats)) q
          = some (parsePropstatList parser r.propstats)
        rw [hh]
        exact objGet_objSet_self acc q _
      | some rr =>
        rcases hl : rest.filter (fun r => r.href == q) with _ | ⟨a, b⟩
        · rw [hl] at hfr; simp at hfr
        · rw [hl, List.getLast?_cons_cons, ← hl, hfr]
    · rw [List.filter_cons_of_neg (by simpa using hh)]
      cases hfr : (rest.filter (fun r => r.href == q)).getLast? with
      | none => exact objGet_objSet_ne acc r.href q _ (fun e => hh e.symm)
      | some rr => rfl

/- Lemmas about the resolution algorithm. -/

theorem handleEntry_skip (c : DavCollectionState) (req : DavRequest) (ip : Bool)
    (path : String) (props : PropertyMap)
    (h : path = c.url ∨ path ++ "/" = c.url) :
    handleEntry c req ip path props = Except.ok none := by
  unfold handleEntry
  rcases h with h | h
  · rw [if_pos (by simp [h])]
  · rw [if_pos (by simp [h])]

theorem handleEntries_filter (c : DavCollectionState) (req : DavRequest) (ip : Bool) :
    ∀ (body : List (String × PropertyMap)) (ch : List Child) (ix : List String),
    handleEntries c req ip body ch ix =
      handleEntries c req ip (body.filter (fun e => !(e.1 == c.url || e.1 ++ "/" == c.url))) ch ix
  | [], _, _ => rfl
  | (path, props) :: rest, ch, ix => by
    by_cases hskip : (path == c.url || path ++ "/" == c.url) = true
    · have hor : path = c.url ∨ path ++ "/" = c.url := by simpa using hskip
      rw [List.filter_cons_of_neg (by simp [hskip])]
      simp only [handleEntries]
      rw [handleEntry_skip c req ip path props hor]
      exact handleEntries_filter c req ip rest ch ix
    · rw [List.filter_cons_of_pos (by simpa using hskip)]
      simp only [handleEntries]
      cases handleEntry c req ip path props with
      | error e => rfl
      | ok o =>
        cases o with
        | none => exact handleEntries_filter c req ip rest ch ix
        | some ch2 => exact handleEntries_filter c req ip rest (ch ++ [ch2]) (ix ++ [path])

theorem handleEntry_props (c : DavCollectionState) (req : DavRequest) (ip : Bool)
    (path : String) (props : PropertyMap) (ch : Child)
    (h : handleEntry c req ip path props = .ok (some ch)) : childProps ch = props := by
  unfold handleEntry at h
  split at h
  · simp at h
  · split at h
    · split at h
      · split at h <;> (injection h with h2; injection h2 with h3; rw [← h3]; rfl)
      · simp at h
    · split at h
      · split at h
        · injection h with h2; injection h2 with h3; rw [← h3]; rfl
        · split at h <;> (injection h with h2; injection h2 with h3; rw [← h3]; rfl)
      · simp at h

theorem request207_depth0 (parser : DavParser) (responses : List ResponseNode) :
    request207 parser "PROPFIND" "0" responses =
      .single (match parseMultiStatusResponse parser responses with
        | [] => none
        | (_, pm) :: _ => some pm) := by
  unfold request207
  rw [if_pos (by decide)]

/- The claims. -/

/-- Claim C1: in every 207 multi-status body given to the reducer, a
propstat block whose embedded status line parses to a code outside the
range 200 to 299 contributes no entries to the PropertyMap of its href
path: removing every such block from every response leaves the result of
parseMultiStatusResponse unchanged, so only properties under 2xx propstat
blocks appear in it. -/
theorem claim_C1 (parser : DavParser) (body : List ResponseNode) :
    parseMultiStatusResponse parser body =
      parseMultiStatusResponse parser
        (body.map (fun r => ⟨r.href,
          r.propstats.filter (fun ps => !propstatParsedUnsuccessful ps)⟩)) := by
  unfold parseMultiStatusResponse
  rw [List.foldl_map]
  apply foldl_congr_fun
  intro b r
  rw [parsePropstatList_filter]

/-- Claim C2, corrected: update with an empty dirty set issues no request
and leaves the state unchanged, and update with exactly the displayname
property dirty issues exactly one PROPPATCH to the collection url whose
body is the serialized propertyupdate skeleton holding the encoded
displayname element; but the dirty set is NOT cleared afterwards: the
code never touches updatedProperties after the request, so the whole
state is returned unchanged. -/
theorem claim_C2 :
    (∀ (F : List (PropertyMap → List XmlNode)) (c : DavCollectionState),
      c.updatedProperties = [] → update F c = (c, [])) ∧
    (∀ (c : DavCollectionState) (s : String),
      c.updatedProperties = [displaynameKey] →
      objGet c.props displaynameKey = some (.str s) →
      update [davCollectionPropSet] c =
        (c, [⟨"PROPPATCH", c.url,
          serialize (getRootSkeleton3 (nsDAV, "propertyupdate") (nsDAV, "set") (nsDAV, "prop")
            [XmlNode.mk nsDAV "displayname" [] [] (some s)])⟩])) := by
  constructor
  · intro F c h
    unfold update
    rw [h]
    rfl
  · intro c s h1 h2
    unfold update
    rw [h1, if_neg (by decide)]
    simp [h2, davCollectionPropSet, objSet, jsString, getRootSkeleton3]

/-- Claim C2 counterexample: after a successful update of a collection
with one dirty property, exactly one request was issued and the dirty
set is still nonempty, refuting the stated clearing of the dirty set on
success. -/
theorem claim_C2_counterexample :
    (update [davCollectionPropSet] dirtyFix).2.length = 1 ∧
    (update [davCollectionPropSet] dirtyFix).1.updatedProperties ≠ [] := by
  decide

/-- Claim C2 witness: the update behaviour evaluated on concrete
collections, an all-clean one and a dirty one. -/
theorem claim_C2_witness :
    update [davCollectionPropSet] cleanFix = (cleanFix, []) ∧
    update [davCollectionPropSet] dirtyFix =
      (dirtyFix, [⟨"PROPPATCH", dirtyFix.url,
        serialize (getRootSkeleton3 (nsDAV, "propertyupdate") (nsDAV, "set") (nsDAV, "prop")
          [XmlNode.mk nsDAV "displayname" [] [] (some "New name")])⟩]) :=
  ⟨claim_C2.1 [davCollectionPropSet] cleanFix rfl,
   claim_C2.2 dirtyFix "New name" rfl (by decide)⟩

/-- Claim C3: when the Depth-0 PROPFIND of find reduces to exactly one
multi-status entry keyed by the collection url concatenated with the
requested uri, and that entry resolves to a child node, then find returns
that very node and its property map is exactly the PropertyMap of the
multi-status entry: the caller receives a node built from the unwrapped
PropertyMap, never a map keyed by path. -/
theorem claim_C3 (parser : DavParser) (c : DavCollectionState) (req : DavRequest)
    (uri : String) (responses : List ResponseNode) (pm : PropertyMap) (ch : Child)
    (h1 : parseMultiStatusResponse parser responses = [(c.url ++ uri, pm)])
    (h2 : handleEntry c req false (c.url ++ uri) pm = .ok (some ch)) :
    findOnCollection parser c req uri responses = .ok (some ch) ∧ childProps ch = pm := by
  refine ⟨?_, handleEntry_props c req false (c.url ++ uri) pm ch h2⟩
  unfold findOnCollection
  rw [request207_depth0 parser responses, h1]
  show (handleMultiStatusResponse c req false [(c.url ++ uri, pm)]).map (fun x => x.1[0]?)
    = .ok (some ch)
  unfold handleMultiStatusResponse
  simp only [handleEntries]
  rw [h2]
  rfl

/-- Claim C3 witness: the find flow evaluated on a concrete Depth-0
response fixture. -/
theorem claim_C3_witness :
    findOnCollection parserAll calFix reqId "sub/" findRespFix = .ok (some findChildFix) ∧
    childProps findChildFix = findPmFix :=
  claim_C3 parserAll calFix reqId "sub/" findRespFix findPmFix findChildFix
    (by decide) (by decide)

/-- Claim C4: resolution never instantiates a child for the entry whose
path is the collection own url, with or without the trailing separator:
such an entry resolves to ok none, and dropping all such entries from the
body leaves the result of the whole resolution unchanged. -/
theorem claim_C4 (c : DavCollectionState) (req : DavRequest) (ip : Bool)
    (body : List (String × PropertyMap)) :
    (∀ path props, (path = c.url ∨ path ++ "/" = c.url) →
      handleEntry c req ip path props = Except.ok none) ∧
    handleMultiStatusResponse c req ip body =
      handleMultiStatusResponse c req ip
        (body.filter (fun e => !(e.1 == c.url || e.1 ++ "/" == c.url))) := by
  refine ⟨fun path props h => handleEntry_skip c req ip path props h, ?_⟩
  unfold handleMultiStatusResponse
  exact handleEntries_filter c req ip body [] []

/-- Claim C4 witness: a body echoing the collection own url without the
trailing separator resolves exactly as the body without that entry. -/
theorem claim_C4_witness :
    handleEntry calFix reqId false "/cal/" [] = Except.ok none ∧
    handleMultiStatusResponse calFix reqId false
        [("/cal", []), ("/cal/x", [(rtKey, PropValue.list [])])]
      = handleMultiStatusResponse calFix reqId false
        [("/cal/x", [(rtKey, PropValue.list [])])] := by
  constructor
  · exact (claim_C4 calFix reqId false []).1 "/cal/" [] (Or.inl rfl)
  · have h := (claim_C4 calFix reqId false
      [("/cal", []), ("/cal/x", [(rtKey, PropValue.list [])])]).2
    have hf : ([("/cal", ([] : PropertyMap)), ("/cal/x", [(rtKey, PropValue.list [])])].filter
        (fun e => !(e.1 == calFix.url || e.1 ++ "/" == calFix.url)))
        = [("/cal/x", [(rtKey, PropValue.list [])])] := by decide
    rw [hf] at h
    exact h

/-- Claim C5, corrected: an entry is classified and instantiated as an
object iff its resourcetype property is absent or empty AND its
getcontenttype property is present with a truthy, that is non-empty,
value; JS truthiness makes a present but empty getcontenttype string fall
to the collection branch, where an entry whose resourcetype is a list is
instantiated as a collection, while an entry with no resourcetype at all
makes the resolution throw a TypeError instead of classifying it.
Property values are shaped as the parser produces them, the
getcontenttype one being absent or a string. -/
theorem claim_C5 (c : DavCollectionState) (req : DavRequest) (ip : Bool)
    (path : String) (props : PropertyMap)
    (h0 : (path == c.url || path ++ "/" == c.url) = false)
    (hc : ctShapeOk props = true) :
    (isObjectCond props = true →
      ∃ ch, handleEntry c req ip path props = .ok (some ch) ∧ isObjectChild ch = true
        ∧ childProps ch = props) ∧
    (isObjectCond props = false →
      ∀ l, objGet props rtKey = some (.list l) →
        ∃ ch, handleEntry c req ip path props = .ok (some ch) ∧ isObjectChild ch = false
          ∧ childProps ch = props) ∧
    (isObjectCond props = false → objGet props rtKey = none →
      handleEntry c req ip path props = .error "TypeError: find is not a function") := by
  refine ⟨?_, ?_, ?_⟩
  · intro hobj
    have hct : (match objGet props ctKey with
        | none => false
        | some v => !jsFalsy v) = true := by
      unfold isObjectCond at hobj
      exact (Bool.and_eq_true _ _ |>.mp hobj).2
    unfold handleEntry
    rw [if_neg (by simp [h0]), if_pos hobj]
    cases hg : objGet props ctKey with
    | none => rw [hg] at hct; simp at hct
    | some v =>
      cases v with
      | str s =>
        by_cases hf : c.objectFactoryMapper.contains ((jsSplit ';' s).headD "")
        · have hm : (jsSplit ';' s).head?.getD "" ∈ c.objectFactoryMapper := by simpa using hf
          refine ⟨Child.object c.url (req.pathname path) props
            (some ((jsSplit ';' s).headD "")) ip, ?_, rfl, rfl⟩
          simp [hg, hm]
        · have hm : (jsSplit ';' s).head?.getD "" ∉ c.objectFactoryMapper := by simpa using hf
          refine ⟨Child.object c.url (req.pathname path) props none false, ?_, rfl, rfl⟩
          simp [hg, hm]
      | list l =>
        unfold ctShapeOk at hc
        rw [hg] at hc
        simp at hc
      | undef => rw [hg] at hct; simp [jsFalsy] at hct
  · intro hobj l hl
    unfold handleEntry
    rw [if_neg (by simp [h0]), if_neg (by simp [hobj])]
    cases hfind : l.find? (fun r => r != collectionMarker) with
    | none =>
      refine ⟨Child.collection c.url (req.pathname path) props none, ?_, rfl, rfl⟩
      simp [hl, hfind]
    | some t =>
      by_cases hf : c.collectionFactoryMapper.contains t
      · have hm : t ∈ c.collectionFactoryMapper := by simpa using hf
        refine ⟨Child.collection c.url (req.pathname path) props (some t), ?_, rfl, rfl⟩
        simp [hl, hfind, hm]
      · have hm : t ∉ c.collectionFactoryMapper := by simpa using hf
        refine ⟨Child.collection c.url (req.pathname path) props none, ?_, rfl, rfl⟩
        simp [hl, hfind, hm]
  · intro hobj hn
    unfold handleEntry
    rw [if_neg (by simp [h0]), if_neg (by simp [hobj]), hn]

/-- Claim C5 counterexample: an entry whose resourcetype is the empty
list and whose getcontenttype is present but the empty string satisfies
the stated object condition, resourcetype empty and getcontenttype
present, yet the code classifies it as a collection because the empty
string is falsy in JS. -/
theorem claim_C5_counterexample :
    handleMultiStatusResponse calFix reqId false
        [("/cal/a", [(rtKey, .list []), (ctKey, .str "")])]
      = .ok ([.collection "/cal/" "/cal/a"
          [(rtKey, .list []), (ctKey, .str "")] none], ["/cal/a"]) := by
  decide

/-- Claim C5 witness: a concrete entry with absent resourcetype and a
non-empty content type resolves to an object child. -/
theorem claim_C5_witness :
    ∃ ch, handleEntry calFix reqId true "/cal/a.vcf" [(ctKey, PropValue.str "text/vcard; v=1")]
        = .ok (some ch) ∧ isObjectChild ch = true
        ∧ childProps ch = [(ctKey, PropValue.str "text/vcard; v=1")] :=
  (claim_C5 calFix reqId true "/cal/a.vcf" [(ctKey, PropValue.str "text/vcard; v=1")]
    (by decide) (by decide)).1 (by decide)

/-- Claim C6: for an entry classified as a collection, the algorithm
takes the first element of the resourcetype list different from the
generic collection marker; when no such element exists, or when no
constructor is registered for it in the collection factory map, a generic
collection child is instantiated, and otherwise the registered subtype is
instantiated, in every case with the parent collection, the request, the
local path and the props. -/
theorem claim_C6 (c : DavCollectionState) (req : DavRequest) (ip : Bool)
    (path : String) (props : PropertyMap) (l : List String)
    (h0 : (path == c.url || path ++ "/" == c.url) = false)
    (hrt : objGet props rtKey = some (.list l))
    (hobj : isObjectCond props = false) :
    (l.find? (fun r => r != collectionMarker) = none →
      handleEntry c req ip path props
        = .ok (some (.collection c.url (req.pathname path) props none))) ∧
    (∀ t, l.find? (fun r => r != collectionMarker) = some t →
      c.collectionFactoryMapper.contains t = false →
      handleEntry c req ip path props
        = .ok (some (.collection c.url (req.pathname path) props none))) ∧
    (∀ t, l.find? (fun r => r != collectionMarker) = some t →
      c.collectionFactoryMapper.contains t = true →
      handleEntry c req ip path props
        = .ok (some (.collection c.url (req.pathname path) props (some t)))) := by
  refine ⟨?_, ?_, ?_⟩
  · intro hfind
    unfold handleEntry
    rw [if_neg (by simp [h0]), if_neg (by simp [hobj])]
    simp [hrt, hfind]
  · intro t hfind hf
    have hm : t ∉ c.collectionFactoryMapper := by simpa using hf
    unfold handleEntry
    rw [if_neg (by simp [h0]), if_neg (by simp [hobj])]
    simp [hrt, hfind, hm]
  · intro t hfind hf
    have hm : t ∈ c.collectionFactoryMapper := by simpa using hf
    unfold handleEntry
    rw [if_neg (by simp [h0]), if_neg (by simp [hobj])]
    simp [hrt, hfind, hm]

/-- Claim C6 witness: a resourcetype listing the generic marker and the
caldav calendar type resolves through the registered calendar factory of
the fixture. -/
theorem claim_C6_witness :
    handleEntry calFix reqId false "/cal/sub/"
        [(rtKey, PropValue.list [collectionMarker, "\x7burn:ietf:params:xml:ns:caldav\x7dcalendar"])]
      = .ok (some (.collection "/cal/" "/cal/sub/"
          [(rtKey, PropValue.list [collectionMarker, "\x7burn:ietf:params:xml:ns:caldav\x7dcalendar"])]
          (some "\x7burn:ietf:params:xml:ns:caldav\x7dcalendar"))) :=
  (claim_C6 calFix reqId false "/cal/sub/"
      [(rtKey, PropValue.list [collectionMarker, "\x7burn:ietf:params:xml:ns:caldav\x7dcalendar"])]
      [collectionMarker, "\x7burn:ietf:params:xml:ns:caldav\x7dcalendar"]
      (by decide) (by decide) (by decide)).2.2
    "\x7burn:ietf:params:xml:ns:caldav\x7dcalendar" (by decide) (by decide)

/-- Claim C7, corrected: when the same href appears in several response
elements of one 207 body, the final PropertyMap for that path is exactly
the parsed PropertyMap of the LAST such response element: the assignment
of the reducer wholesale replaces the earlier map, so keys present only
in an earlier response element are dropped, not retained. -/
theorem claim_C7 (parser : DavParser) (body : List ResponseNode) (q : String) :
    objGet (parseMultiStatusResponse parser body) q =
      ((body.filter (fun r => r.href == q)).getLast?).map
        (fun r => parsePropstatList parser r.propstats) := by
  unfold parseMultiStatusResponse
  rw [parseMulti_acc parser q body []]
  cases (body.filter (fun r => r.href == q)).getLast? <;> simp [objGet]

/-- Claim C7 counterexample: two successful response elements for the
same href, the first carrying property a and the second property b; the
stated per-key last-write-wins would retain a, but the result holds only
b: the earlier PropertyMap was replaced wholesale. -/
theorem claim_C7_counterexample :
    parseMultiStatusResponse parserAll
        [⟨"/x", [⟨"HTTP/1.1 200 OK", [⟨"DAV:", "a", .str "1"⟩]⟩]⟩,
         ⟨"/x", [⟨"HTTP/1.1 200 OK", [⟨"DAV:", "b", .str "2"⟩]⟩]⟩]
      = [("/x", [("\x7bDAV:\x7db", .str "2")])] := by
  decide

/-- Claim C8: every failed request is rejected with exactly one error
kind, selected by the catch cascade: cancellation yields the aborted
error; otherwise a request that obtained no response yields the network
error; otherwise a status in the range 400 to 499 yields the client
error, one in 500 to 599 the server error, and every other outcome the
generic HTTP error. -/
theorem claim_C8 (e : HttpFailure) :
    (e.isCancel = true → classifyRequestFailure e = .abortedError none (some (-1))) ∧
    (e.isCancel = false → e.hasRequest = true →
      classifyRequestFailure e = .networkError none (some (-1))) ∧
    (∀ s, e.isCancel = false → e.hasRequest = false → e.status = some s → 400 ≤ s → s < 500 →
      classifyRequestFailure e = .clientError e.data e.status) ∧
    (∀ s, e.isCancel = false → e.hasRequest = false → e.status = some s → 500 ≤ s → s < 600 →
      classifyRequestFailure e = .serverError e.data e.status) ∧
    (e.isCancel = false → e.hasRequest = false →
      (jsStatusGE e.status 400 && jsStatusLT e.status 500) = false →
      (jsStatusGE e.status 500 && jsStatusLT e.status 600) = false →
      classifyRequestFailure e = .httpError e.data e.status) := by
  refine ⟨?_, ?_, ?_, ?_, ?_⟩
  · intro h
    unfold classifyRequestFailure
    rw [if_pos h]
  · intro h1 h2
    unfold classifyRequestFailure
    rw [if_neg (by simp [h1]), if_pos h2]
  · intro s h1 h2 hs h4 h5
    unfold classifyRequestFailure
    rw [if_neg (by simp [h1]), if_neg (by simp [h2]),
        if_pos (by simp [jsStatusGE, jsStatusLT, hs, h4, h5])]
  · intro s h1 h2 hs h4 h5
    unfold classifyRequestFailure
    rw [if_neg (by simp [h1]), if_neg (by simp [h2]),
        if_neg (by simp [jsStatusGE, jsStatusLT, hs]; omega),
        if_pos (by simp [jsStatusGE, jsStatusLT, hs, h4, h5])]
  · intro h1 h2 h3 h4
    unfold classifyRequestFailure
    rw [if_neg (by simp [h1]), if_neg (by simp [h2]), if_neg (by simp [h3]),
        if_neg (by simp [h4])]

/-- Claim C8 witness: one concrete failure of each kind, classified. -/
theorem claim_C8_witness :
    classifyRequestFailure ⟨true, false, none, none⟩ = .abortedError none (some (-1)) ∧
    classifyRequestFailure ⟨false, true, none, none⟩ = .networkError none (some (-1)) ∧
    classifyRequestFailure ⟨false, false, some 404, some "nf"⟩
      = .clientError (some "nf") (some 404) ∧
    classifyRequestFailure ⟨false, false, some 503, none⟩ = .serverError none (some 503) ∧
    classifyRequestFailure ⟨false, false, some 304, none⟩ = .httpError none (some 304) :=
  ⟨(claim_C8 ⟨true, false, none, none⟩).1 rfl,
   (claim_C8 ⟨false, true, none, none⟩).2.1 rfl rfl,
   (claim_C8 ⟨false, false, some 404, some "nf"⟩).2.2.1 404 rfl rfl rfl
     (by decide) (by decide),
   (claim_C8 ⟨false, false, some 503, none⟩).2.2.2.1 503 rfl rfl rfl
     (by decide) (by decide),
   (claim_C8 ⟨false, false, some 304, none⟩).2.2.2.2 rfl rfl (by decide) (by decide)⟩

/-- Claim C9: whatever url string the DavCollection constructor receives,
the normalized url ends with the separator, and the operations of this
development never change the url field of a collection state, so the
invariant is preserved. -/
theorem claim_C9 (url : String) (F : List (PropertyMap → List XmlNode))
    (c : DavCollectionState) :
    endsWithSlash (normalizeCollectionUrl url) = true ∧
    (update F c).1.url = c.url ∧
    (unpublish c).1.url = c.url := by
  refine ⟨?_, ?_, rfl⟩
  · unfold normalizeCollectionUrl
    by_cases h : jsSliceLast url = "/"
    · rw [if_neg (fun hn => hn h)]
      have hd : url.data.drop (url.data.length - 1) = ['/'] := by
        have h2 := congrArg String.data h
        simpa [jsSliceLast] using h2
      unfold endsWithSlash
      rw [getLast?_of_drop_eq '/' url.data hd]
      rfl
    · rw [if_pos h]
      unfold endsWithSlash
      rw [String.data_append]
      have hslash : ("/" : String).data = ['/'] := rfl
      rw [hslash, List.getLast?_concat]
      rfl
  · unfold update
    split <;> rfl

/-- Claim C10: after unpublish, exactly the publish-url key is gone from
the local property map, the value of every other key is unchanged, the
dirty set is unchanged, and the only request issued is the POST of the
serialized unpublish-calendar body to the collection url. -/
theorem claim_C10 (c : DavCollectionState) :
    objGet (unpublish c).1.props publishUrlKey = none ∧
    (∀ k, k ≠ publishUrlKey → objGet (unpublish c).1.props k = objGet c.props k) ∧
    (unpublish c).1.updatedProperties = c.updatedProperties ∧
    (unpublish c).2 = [⟨"POST", c.url,
      serialize (XmlNode.mk nsCalendarserver "unpublish-calendar" [] [] none)⟩] := by
  refine ⟨?_, ?_, rfl, rfl⟩
  · exact objGet_filter_self publishUrlKey c.props
  · intro k hk
    exact objGet_filter_other publishUrlKey k hk c.props

/-- Claim C10 witness: unpublish evaluated on a concrete published
collection, showing the publish-url gone, the displayname untouched and
the dirty set unchanged. -/
theorem claim_C10_witness :
    objGet (unpublish pubFix).1.props publishUrlKey = none ∧
    objGet (unpublish pubFix).1.props displaynameKey = objGet pubFix.props displaynameKey ∧
    (unpublish pubFix).1.updatedProperties = pubFix.updatedProperties :=
  ⟨(claim_C10 pubFix).1,
   (claim_C10 pubFix).2.1 displaynameKey (by decide),
   (claim_C10 pubFix).2.2.1⟩

end CDav
